import Mathlib

/-!
Verification of the residential painting bid tool (src/paint-bids-v1.py).

The numeric model uses exact rationals. Python's `round(x, 1)` is modelled
as round-half-to-even on the value scaled by 10 (`round1`); for the inputs
appearing in the theorems below the rounded quantities are exact decimals,
so the rational model agrees with the program's floating-point arithmetic.
Scope and prep-level arguments stay strings, as in the program, so that
the mismatch between the UI option strings and the lookup-table keys is
visible to the model.
-/

/-- Constant from the source: average painter wage in dollars per hour. -/
def PAINTER_WAGE : ℚ := 20

/-- Constant from the source: paint cost per gallon. -/
def PAINT_COST_PER_GALLON : ℚ := 40

/-- Constant from the source: gallons of paint per 100 square feet. -/
def GALLONS_PER_100_SQFT : ℚ := 0.025

/-- Constant from the source: supplies cost per 1000 square feet. -/
def SUPPLIES_COST_PER_1000_SQFT : ℚ := 50

/-- Constant from the source: markup fraction applied to the subtotal. -/
def MARKUP_PERCENT : ℚ := 0.45

/-- Constant from the source: maximum hours a painter works in one week. -/
def MAX_WEEK_HOURS : ℚ := 50

/-- The nested dictionary `TIME_ESTIMATES` of the source, as a lookup from
the scope string and the prep-level string to the base hours per 1000
square feet; `none` models a `KeyError` on either level. -/
def TIME_ESTIMATES (scope prep : String) : Option ℚ :=
  if scope = "Interior Only" then
    if prep = "Low" then some 10
    else if prep = "Medium" then some 12
    else if prep = "High" then some 15
    else none
  else if scope = "Exterior Only" then
    if prep = "Low" then some 12
    else if prep = "Medium" then some 15
    else if prep = "High" then some 20
    else none
  else if scope = "Both Interior and Exterior" then
    if prep = "Low" then some 22
    else if prep = "Medium" then some 27
    else if prep = "High" then some 35
    else none
  else none

/-- Round a rational to the nearest integer, ties to even, as Python's
`round` does on exact values. -/
def roundHalfEven (q : ℚ) : ℤ :=
  if Int.fract q < 1 / 2 then ⌊q⌋
  else if 1 / 2 < Int.fract q then ⌊q⌋ + 1
  else if 2 ∣ ⌊q⌋ then ⌊q⌋ else ⌊q⌋ + 1

/-- Python's `round(q, 1)`: one decimal place, ties to even. -/
def round1 (q : ℚ) : ℚ := (roundHalfEven (10 * q) : ℚ) / 10

/-- The source's `calculate_hours`: look up the base hours for the scope
and prep level, scale by square footage, and round to one decimal; on a
failed lookup the `except KeyError` branch shows an error and returns 0. -/
def calculate_hours (sq_ft : ℚ) (scope prep : String) : ℚ :=
  match TIME_ESTIMATES scope prep with
  | some base => round1 (sq_ft / 1000 * base)
  | none => 0

/-- The source's `calculate_costs`: returns the tuple
`(total_hours, hours_per_painter, labor_cost, material_cost, total_cost)`. -/
def calculate_costs (sq_ft : ℚ) (scope prep : String) (crew_size : ℕ) :
    ℚ × ℚ × ℚ × ℚ × ℚ :=
  let total_hours := calculate_hours sq_ft scope prep
  let hours_per_painter :=
    if 0 < crew_size then total_hours / crew_size else total_hours
  let labor_cost := total_hours * PAINTER_WAGE
  let paint_area :=
    if scope = "Both Interior and Exterior" then sq_ft * 2 else sq_ft
  let gallons_needed := paint_area / 100 * GALLONS_PER_100_SQFT
  let paint_cost := gallons_needed * PAINT_COST_PER_GALLON
  let supplies_cost := sq_ft / 1000 * SUPPLIES_COST_PER_1000_SQFT
  let material_cost := paint_cost + supplies_cost
  let subtotal := labor_cost + material_cost
  let markup := subtotal * MARKUP_PERCENT
  let total_cost := subtotal + markup
  (total_hours, hours_per_painter, labor_cost, material_cost, total_cost)

/-- Outcome of the `Generate Bid` button handler: either the handler
reports a calculation failure, or it renders the bid summary (and offers
the PDF document), or it shows the over-the-week-limit error and renders
no bid. -/
inductive BidOutcome where
  | calcFailed : BidOutcome
  | summary : ℚ → ℚ → ℚ → ℚ → ℚ → BidOutcome
  | overLimit : ℚ → BidOutcome
deriving DecidableEq

/-- The source's `Generate Bid` handler: call `calculate_costs`, report
failure when `total_hours == 0`, otherwise render the summary when
`hours_per_painter <= MAX_WEEK_HOURS` and the over-limit error otherwise. -/
def generateBid (sq_ft : ℚ) (scope prep : String) (crew_size : ℕ) :
    BidOutcome :=
  if (calculate_costs sq_ft scope prep crew_size).1 = 0 then
    BidOutcome.calcFailed
  else if (calculate_costs sq_ft scope prep crew_size).2.1 ≤ MAX_WEEK_HOURS then
    BidOutcome.summary
      (calculate_costs sq_ft scope prep crew_size).1
      (calculate_costs sq_ft scope prep crew_size).2.1
      (calculate_costs sq_ft scope prep crew_size).2.2.1
      (calculate_costs sq_ft scope prep crew_size).2.2.2.1
      (calculate_costs sq_ft scope prep crew_size).2.2.2.2
  else BidOutcome.overLimit (calculate_costs sq_ft scope prep crew_size).2.1

lemma roundHalfEven_eq_of_lt_half (n : ℤ) (q : ℚ) (h1 : (n : ℚ) ≤ q)
    (h2 : q < n + 1 / 2) : roundHalfEven q = n := by
  have hfl : ⌊q⌋ = n := Int.floor_eq_iff.mpr ⟨h1, by linarith⟩
  have hfr : Int.fract q < 1 / 2 := by
    rw [Int.fract, hfl]
    linarith
  unfold roundHalfEven
  rw [if_pos hfr, hfl]

lemma roundHalfEven_eq_of_half_lt (n : ℤ) (q : ℚ) (h1 : (n : ℚ) + 1 / 2 < q)
    (h2 : q < n + 1) : roundHalfEven q = n + 1 := by
  have h0 : (n : ℚ) ≤ q := by linarith
  have hfl : ⌊q⌋ = n := Int.floor_eq_iff.mpr ⟨h0, h2⟩
  have hfr : 1 / 2 < Int.fract q := by
    rw [Int.fract, hfl]
    linarith
  unfold roundHalfEven
  rw [if_neg (by linarith), if_pos hfr, hfl]

lemma round1_eq_of (q : ℚ) (n : ℤ) (h1 : (n : ℚ) ≤ 10 * q)
    (h2 : 10 * q < n + 1 / 2) : round1 q = (n : ℚ) / 10 := by
  unfold round1
  rw [roundHalfEven_eq_of_lt_half n (10 * q) h1 h2]

lemma round1_eq_of_up (q : ℚ) (n : ℤ) (h1 : (n : ℚ) + 1 / 2 < 10 * q)
    (h2 : 10 * q < n + 1) : round1 q = ((n : ℚ) + 1) / 10 := by
  unfold round1
  rw [roundHalfEven_eq_of_half_lt n (10 * q) h1 h2]
  push_cast
  ring

lemma calculate_hours_of_lookup (sq : ℚ) (scope prep : String) (base : ℚ)
    (h : TIME_ESTIMATES scope prep = some base) :
    calculate_hours sq scope prep = round1 (sq / 1000 * base) := by
  unfold calculate_hours
  rw [h]

lemma lookup_interior_low : TIME_ESTIMATES "Interior Only" "Low" = some 10 := by
  simp [TIME_ESTIMATES]

lemma hours_2000_IL : calculate_hours 2000 "Interior Only" "Low" = 20 := by
  rw [calculate_hours_of_lookup 2000 _ _ 10 lookup_interior_low]
  have h := round1_eq_of ((2000 : ℚ) / 1000 * 10) 200 (by norm_num) (by norm_num)
  rw [h]
  norm_num

lemma costs_fst_2000_IL :
    (calculate_costs 2000 "Interior Only" "Low" 2).1 = 20 := by
  simpa [calculate_costs] using hours_2000_IL

lemma costs_hpp_2000_IL :
    (calculate_costs 2000 "Interior Only" "Low" 2).2.1 = 10 := by
  simp [calculate_costs, hours_2000_IL]
  norm_num

/-- C1: with inputs sq_ft = 2000, scope "Interior Only", prep level "Low"
and crew size 2, the calculation returns total_hours = 20.0 and
hours_per_painter = 10.0. -/
theorem c1_example_calculation :
    (calculate_costs 2000 "Interior Only" "Low" 2).1 = 20 ∧
    (calculate_costs 2000 "Interior Only" "Low" 2).2.1 = 10 :=
  ⟨costs_fst_2000_IL, costs_hpp_2000_IL⟩

lemma costs_fst_eq_hours (sq : ℚ) (scope prep : String) (crew : ℕ) :
    (calculate_costs sq scope prep crew).1 = calculate_hours sq scope prep := by
  simp [calculate_costs]

lemma generateBid_of_zero_hours (sq : ℚ) (scope prep : String) (crew : ℕ)
    (h : calculate_hours sq scope prep = 0) :
    generateBid sq scope prep crew = BidOutcome.calcFailed := by
  unfold generateBid
  rw [if_pos (by rw [costs_fst_eq_hours, h])]

/-- C2: every prep-level string offered by the UI selectbox differs from
the inner keys of TIME_ESTIMATES, so for every scope the lookup fails,
calculate_hours takes its KeyError branch and returns 0, and the
button-triggered calculation reports failure. -/
theorem c2_ui_prep_mismatch (scope prep : String)
    (hp : prep = "Low (minimal prep)" ∨
          prep = "Medium (some scraping/patching)" ∨
          prep = "High (extensive prep)")
    (sq : ℚ) (crew : ℕ) :
    TIME_ESTIMATES scope prep = none ∧
    calculate_hours sq scope prep = 0 ∧
    generateBid sq scope prep crew = BidOutcome.calcFailed := by
  have hnone : TIME_ESTIMATES scope prep = none := by
    rcases hp with h | h | h <;> subst h <;> unfold TIME_ESTIMATES <;>
      split_ifs <;> simp_all
  have hzero : calculate_hours sq scope prep = 0 := by
    unfold calculate_hours
    rw [hnone]
  exact ⟨hnone, hzero, generateBid_of_zero_hours sq scope prep crew hzero⟩

/-- Witness for C2 at scope "Interior Only", the first UI prep string,
sq_ft 2000 and crew 2. -/
theorem c2_ui_prep_mismatch_witness :
    TIME_ESTIMATES "Interior Only" "Low (minimal prep)" = none ∧
    calculate_hours 2000 "Interior Only" "Low (minimal prep)" = 0 ∧
    generateBid 2000 "Interior Only" "Low (minimal prep)" 2 =
      BidOutcome.calcFailed :=
  c2_ui_prep_mismatch "Interior Only" "Low (minimal prep)" (Or.inl rfl) 2000 2

/-- C3: for every input, total_cost exceeds labor_cost + material_cost by
exactly the fixed markup fraction 0.45:
total_cost = (labor_cost + material_cost) * (1 + 0.45). -/
theorem c3_markup_exact (sq : ℚ) (scope prep : String) (crew : ℕ) :
    (calculate_costs sq scope prep crew).2.2.2.2 =
      ((calculate_costs sq scope prep crew).2.2.1 +
        (calculate_costs sq scope prep crew).2.2.2.1) * (1 + 0.45) := by
  simp only [calculate_costs, MARKUP_PERCENT]
  rw [show (0.45 : ℚ) = 45 / 100 from by norm_num]
  ring

/-- C6: whenever the (scope, prep_level) pair is not a key path of
TIME_ESTIMATES, calculate_hours returns 0 (its error branch), and the
Generate Bid handler reports failure and renders no bid. -/
theorem c6_invalid_key_reports_failure (sq : ℚ) (scope prep : String)
    (crew : ℕ) (h : TIME_ESTIMATES scope prep = none) :
    calculate_hours sq scope prep = 0 ∧
    generateBid sq scope prep crew = BidOutcome.calcFailed := by
  have hzero : calculate_hours sq scope prep = 0 := by
    unfold calculate_hours
    rw [h]
  exact ⟨hzero, generateBid_of_zero_hours sq scope prep crew hzero⟩

/-- Witness for C6 at an invalid scope/prep pair. -/
theorem c6_invalid_key_reports_failure_witness :
    TIME_ESTIMATES "Garage" "Extreme" = none ∧
    calculate_hours 1500 "Garage" "Extreme" = 0 ∧
    generateBid 1500 "Garage" "Extreme" 3 = BidOutcome.calcFailed := by
  have h : TIME_ESTIMATES "Garage" "Extreme" = none := by
    simp [TIME_ESTIMATES]
  exact ⟨h, c6_invalid_key_reports_failure 1500 "Garage" "Extreme" 3 h⟩

/-- C7: for every input, material_cost equals paint cost plus supplies
cost from the fixed constants, with the paint area doubled exactly when
the scope is "Both Interior and Exterior". -/
theorem c7_material_cost_formula (sq : ℚ) (scope prep : String) (crew : ℕ) :
    (calculate_costs sq scope prep crew).2.2.2.1 =
      (if scope = "Both Interior and Exterior" then 2 * sq else sq) / 100 *
          0.025 * 40 +
        sq / 1000 * 50 := by
  simp only [calculate_costs, GALLONS_PER_100_SQFT, PAINT_COST_PER_GALLON,
    SUPPLIES_COST_PER_1000_SQFT]
  split_ifs <;> ring

/-- C8: for every input, labor_cost equals total_hours times the fixed
hourly wage of 20. -/
theorem c8_labor_cost_formula (sq : ℚ) (scope prep : String) (crew : ℕ) :
    (calculate_costs sq scope prep crew).2.2.1 =
      calculate_hours sq scope prep * 20 := by
  simp only [calculate_costs, PAINTER_WAGE]

/-- C4 counterexample: with scope "Exterior Only" and prep "Low" (base 12
hours per 1000 sq ft), square footages a = 1003 and b = 2 * 1003 = 2006
give calculate_hours 1003 = 12.0 (12.036 rounds down) but
calculate_hours 2006 = 24.1 (24.072 rounds up), so the rounded result is
not linear in square footage. -/
theorem c4_counterexample_rounding :
    calculate_hours (2 * 1003) "Exterior Only" "Low" ≠
      2 * calculate_hours 1003 "Exterior Only" "Low" := by
  have hl : TIME_ESTIMATES "Exterior Only" "Low" = some 12 := by
    simp [TIME_ESTIMATES]
  have e1 : calculate_hours 1003 "Exterior Only" "Low" =
      round1 ((1003 : ℚ) / 1000 * 12) :=
    calculate_hours_of_lookup 1003 _ _ 12 hl
  have e2 : calculate_hours (2 * 1003) "Exterior Only" "Low" =
      round1 ((2 * 1003 : ℚ) / 1000 * 12) :=
    calculate_hours_of_lookup (2 * 1003) _ _ 12 hl
  have v1 : round1 ((1003 : ℚ) / 1000 * 12) = ((120 : ℤ) : ℚ) / 10 :=
    round1_eq_of _ 120 (by norm_num) (by norm_num)
  have v2 : round1 ((2 * 1003 : ℚ) / 1000 * 12) = (((240 : ℤ) : ℚ) + 1) / 10 :=
    round1_eq_of_up _ 240 (by norm_num) (by norm_num)
  rw [e1, e2, v1, v2]
  norm_num

lemma round1_of_nat_product (m b : ℕ) :
    round1 (100 * (m : ℚ) / 1000 * (b : ℚ)) = (m : ℚ) * (b : ℚ) / 10 := by
  have harg : (10 : ℚ) * (100 * (m : ℚ) / 1000 * (b : ℚ)) =
      (((m * b : ℕ) : ℤ) : ℚ) := by
    push_cast
    ring
  have h := round1_eq_of (100 * (m : ℚ) / 1000 * (b : ℚ)) ((m * b : ℕ) : ℤ)
    (by rw [harg]) (by rw [harg]; push_cast; linarith)
  rw [h]
  push_cast
  ring

/-- C4 amended: restricted to square footages that are multiples of 100
(the granularity of the UI input, whose step is 100 sq ft), total_hours is
exactly linear: for every valid (scope, prep_level) key path with base
hours b and footages a = 100 * ma, s = 100 * mb with s = k * a,
calculate_hours s scope prep = k * calculate_hours a scope prep. -/
theorem c4_linear_on_multiples_of_100 (scope prep : String) (b : ℕ)
    (h : TIME_ESTIMATES scope prep = some (b : ℚ)) (ma mb : ℕ) (k : ℚ)
    (hk : (100 * (mb : ℚ)) = k * (100 * (ma : ℚ))) :
    calculate_hours (100 * (mb : ℚ)) scope prep =
      k * calculate_hours (100 * (ma : ℚ)) scope prep := by
  have key : ∀ m : ℕ, calculate_hours (100 * (m : ℚ)) scope prep =
      (m : ℚ) * (b : ℚ) / 10 := by
    intro m
    rw [calculate_hours_of_lookup _ _ _ _ h, round1_of_nat_product]
  have hmb : (mb : ℚ) = k * (ma : ℚ) := by linarith
  rw [key ma, key mb, hmb]
  ring

/-- Witness for the amended C4: scope "Interior Only", prep "Low",
a = 1000, s = 2000, k = 2. -/
theorem c4_linear_on_multiples_of_100_witness :
    TIME_ESTIMATES "Interior Only" "Low" = some (((10 : ℕ) : ℚ)) ∧
    (100 * ((20 : ℕ) : ℚ)) = 2 * (100 * ((10 : ℕ) : ℚ)) ∧
    calculate_hours (100 * ((20 : ℕ) : ℚ)) "Interior Only" "Low" =
      2 * calculate_hours (100 * ((10 : ℕ) : ℚ)) "Interior Only" "Low" :=
  ⟨by norm_num [TIME_ESTIMATES], by norm_num,
    c4_linear_on_multiples_of_100 "Interior Only" "Low" 10
      (by norm_num [TIME_ESTIMATES]) 10 20 2 (by norm_num)⟩

/-- C5: after a successful calculation (total_hours nonzero), the bid
summary is rendered if and only if hours_per_painter is at most
MAX_WEEK_HOURS = 50; when hours_per_painter exceeds 50 the handler shows
the over-limit error instead and produces no bid document. -/
theorem c5_weekly_cap (sq : ℚ) (scope prep : String) (crew : ℕ)
    (h : (calculate_costs sq scope prep crew).1 ≠ 0) :
    (generateBid sq scope prep crew =
        BidOutcome.summary (calculate_costs sq scope prep crew).1
          (calculate_costs sq scope prep crew).2.1
          (calculate_costs sq scope prep crew).2.2.1
          (calculate_costs sq scope prep crew).2.2.2.1
          (calculate_costs sq scope prep crew).2.2.2.2 ↔
      (calculate_costs sq scope prep crew).2.1 ≤ MAX_WEEK_HOURS) ∧
    (MAX_WEEK_HOURS < (calculate_costs sq scope prep crew).2.1 →
      generateBid sq scope prep crew =
        BidOutcome.overLimit (calculate_costs sq scope prep crew).2.1) := by
  unfold generateBid
  rw [if_neg h]
  by_cases hle : (calculate_costs sq scope prep crew).2.1 ≤ MAX_WEEK_HOURS
  · rw [if_pos hle]
    exact ⟨iff_of_true rfl hle, fun hgt => ((not_le.mpr hgt) hle).elim⟩
  · rw [if_neg hle]
    refine ⟨⟨fun habs => ?_, fun hle2 => (hle hle2).elim⟩, fun _ => rfl⟩
    exact absurd habs (by simp)

/-- Witness for C5 at sq_ft 2000, "Interior Only", "Low", crew 2, where
total_hours = 20 is nonzero. -/
theorem c5_weekly_cap_witness :
    (calculate_costs 2000 "Interior Only" "Low" 2).1 ≠ 0 ∧
    ((generateBid 2000 "Interior Only" "Low" 2 =
        BidOutcome.summary (calculate_costs 2000 "Interior Only" "Low" 2).1
          (calculate_costs 2000 "Interior Only" "Low" 2).2.1
          (calculate_costs 2000 "Interior Only" "Low" 2).2.2.1
          (calculate_costs 2000 "Interior Only" "Low" 2).2.2.2.1
          (calculate_costs 2000 "Interior Only" "Low" 2).2.2.2.2 ↔
      (calculate_costs 2000 "Interior Only" "Low" 2).2.1 ≤ MAX_WEEK_HOURS) ∧
    (MAX_WEEK_HOURS < (calculate_costs 2000 "Interior Only" "Low" 2).2.1 →
      generateBid 2000 "Interior Only" "Low" 2 =
        BidOutcome.overLimit (calculate_costs 2000 "Interior Only" "Low" 2).2.1)) := by
  have hne : (calculate_costs 2000 "Interior Only" "Low" 2).1 ≠ 0 := by
    rw [costs_fst_2000_IL]
    norm_num
  exact ⟨hne, c5_weekly_cap 2000 "Interior Only" "Low" 2 hne⟩

/-- C9: calculate_costs is deterministic: two runs on equal inputs return
the identical result tuple. -/
theorem c9_deterministic (sq1 sq2 : ℚ) (scope1 scope2 prep1 prep2 : String)
    (crew1 crew2 : ℕ) (h1 : sq1 = sq2) (h2 : scope1 = scope2)
    (h3 : prep1 = prep2) (h4 : crew1 = crew2) :
    calculate_costs sq1 scope1 prep1 crew1 =
      calculate_costs sq2 scope2 prep2 crew2 := by
  rw [h1, h2, h3, h4]

/-- Witness for C9 at two runs with the same concrete inputs. -/
theorem c9_deterministic_witness :
    calculate_costs 2000 "Interior Only" "Low" 2 =
      calculate_costs 2000 "Interior Only" "Low" 2 :=
  c9_deterministic 2000 2000 "Interior Only" "Interior Only" "Low" "Low" 2 2
    rfl rfl rfl rfl

/-- C10: calculate_costs never divides by zero: with crew_size = 0 the
guard makes hours_per_painter equal total_hours, and with crew_size >= 1,
hours_per_painter = total_hours / crew_size. -/
theorem c10_no_division_by_zero (sq : ℚ) (scope prep : String) (crew : ℕ) :
    (crew = 0 → (calculate_costs sq scope prep crew).2.1 =
        (calculate_costs sq scope prep crew).1) ∧
    (1 ≤ crew → (calculate_costs sq scope prep crew).2.1 =
        (calculate_costs sq scope prep crew).1 / (crew : ℚ)) := by
  constructor
  · intro h
    subst h
    simp [calculate_costs]
  · intro h
    have hpos : 0 < crew := h
    simp [calculate_costs, hpos]

/-- Witness for C10 at crew sizes 0 and 2. -/
theorem c10_no_division_by_zero_witness :
    (calculate_costs 2000 "Interior Only" "Low" 0).2.1 =
      (calculate_costs 2000 "Interior Only" "Low" 0).1 ∧
    (calculate_costs 2000 "Interior Only" "Low" 2).2.1 =
      (calculate_costs 2000 "Interior Only" "Low" 2).1 / ((2 : ℕ) : ℚ) :=
  ⟨(c10_no_division_by_zero 2000 "Interior Only" "Low" 0).1 rfl,
    (c10_no_division_by_zero 2000 "Interior Only" "Low" 2).2 (by norm_num)⟩
